import Mathlib

/-!
Shallow embedding of the `mqtt-dbus-notify` program (the most complete
variant of the source: `Subscription.Trigger`, `createTitleAndBody`,
`template`, the `subscribed` tracking list, `subscribe`/`unsubscribe`,
`connectMQTT`, `disconnectMQTT`, `disconnectDBus`, `notify`).

Pure computations (payload splitting, template parsing and evaluation,
title/body rendering, option building) are translated as Lean functions.
Interactions with the broker, the D-Bus daemon and the OS are modelled by
explicit oracles (outcome functions) and explicit state records; the log
and the sequence of outbound calls are reified as lists so that theorems
can speak about them.
-/

namespace MqttDbusNotify

/-- The newline character, written via its code point. -/
def nlChar : Char := Char.ofNat 10

/-- The left curly brace character. -/
def lbrace : Char := Char.ofNat 123

/-- The right curly brace character. -/
def rbrace : Char := Char.ofNat 125

/-- Constant `APPNAME` from the source. -/
def APPNAME : String := "mqtt-dbus-notify"

/-- Configuration for a single MQTT subscription (struct `Subscription`). -/
structure Subscription where
  Topic : String
  Title : String
  Body  : String
  Icon  : String
deriving DecidableEq, Repr

/-- Configuration options (struct `Config`). -/
structure Config where
  Host : String
  Port : Int
  User : String
  Pass : String
  Timeout : Int
  Icon : String
  Subscriptions : List Subscription
deriving DecidableEq, Repr

/-- The defaults installed by `loadConfig` before the file overlay. -/
def defaultConfig : Config :=
  { Host := "localhost", Port := 1883, User := "", Pass := "", Timeout := 5,
    Icon := "dialog-information", Subscriptions := [] }

/-- Split a character list at the first newline: `none` when no newline
occurs, otherwise the characters before it and the characters after it. -/
def splitFirstNL : List Char → Option (List Char × List Char)
  | [] => none
  | c :: cs =>
    if c = nlChar then some ([], cs)
    else
      match splitFirstNL cs with
      | none => none
      | some (a, b) => some (c :: a, b)

/-- Go `strings.SplitN(s, "\n", 2)`: one element when `s` has no newline,
otherwise the part before the first newline and the remainder. -/
def goSplitN2 (s : String) : List String :=
  match splitFirstNL s.data with
  | none => [s]
  | some (a, b) => [String.mk a, String.mk b]

/-! ### Model of the Go `text/template` engine

The engine is external library code; it is modelled restricted to the
constructs exercised by the configuration strings in this development:
literal text, the action `.` (the data value), the action `index . N`
for a decimal literal N, and the parse error for an unclosed action.
The `index` builtin handles strings byte-wise: an in-range index yields
the byte, which renders as its decimal value, and an out-of-range index
fails execution with `index out of range: N`.  On these inputs the model
agrees with Go `text/template`. -/

/-- A parsed template node. -/
inductive TmplNode where
  | text (s : String)
  | dot
  | indexDot (n : Nat)
deriving DecidableEq, Repr

/-- If `pat` is a leading segment of `s`, return the remainder of `s`. -/
def dropPat : List Char → List Char → Option (List Char)
  | [], s => some s
  | _ :: _, [] => none
  | p :: ps, c :: cs => if p = c then dropPat ps cs else none

/-- Find the first occurrence of `pat`: the characters before it and the
characters after it. -/
def findPat (pat : List Char) : List Char → Option (List Char × List Char)
  | [] =>
    match dropPat pat [] with
    | some r => some ([], r)
    | none => none
  | c :: cs =>
    match dropPat pat (c :: cs) with
    | some r => some ([], r)
    | none =>
      match findPat pat cs with
      | some (a, b) => some (c :: a, b)
      | none => none

/-- Remove leading space characters. -/
def dropLeadingSpaces : List Char → List Char
  | [] => []
  | c :: cs => if c = ' ' then dropLeadingSpaces cs else c :: cs

/-- Remove leading and trailing space characters. -/
def trimChars (l : List Char) : List Char :=
  (dropLeadingSpaces (dropLeadingSpaces l).reverse).reverse

/-- Decimal digit value of a character, when it is a digit. -/
def digitVal (c : Char) : Option Nat :=
  if 48 ≤ c.toNat ∧ c.toNat ≤ 57 then some (c.toNat - 48) else none

/-- Accumulate decimal digits into a number; `none` on a non-digit. -/
def digitsToNatAux : List Char → Nat → Option Nat
  | [], acc => some acc
  | c :: cs, acc =>
    match digitVal c with
    | some d => digitsToNatAux cs (acc * 10 + d)
    | none => none

/-- Read a nonempty all-digit character list as a number. -/
def digitsToNat : List Char → Option Nat
  | [] => none
  | c :: cs => digitsToNatAux (c :: cs) 0

/-- The action opener. -/
def openPat : List Char := [lbrace, lbrace]

/-- The action closer. -/
def closePat : List Char := [rbrace, rbrace]

/-- The head of an `index . N` action. -/
def indexDotPat : List Char := ("index . ").data

/-- Parse the inside of one template action. -/
def parseAction (a : List Char) : Except String TmplNode :=
  let t := trimChars a
  if t = ['.'] then Except.ok TmplNode.dot
  else
    match dropPat indexDotPat t with
    | some rest =>
      match digitsToNat (trimChars rest) with
      | some n => Except.ok (TmplNode.indexDot n)
      | none => Except.error "template: unexpected argument in index"
    | none => Except.error "template: function not recognized"

/-- Parse a template source into nodes.  Fuel bounds the recursion; it is
called with more fuel than the source length, which always suffices since
every action consumes at least the two opener characters. -/
def parseNodes : Nat → List Char → Except String (List TmplNode)
  | 0, _ => Except.error "template: internal fuel exhausted"
  | Nat.succ fuel, cs =>
    match findPat openPat cs with
    | none => Except.ok [TmplNode.text (String.mk cs)]
    | some (before, rest) =>
      match findPat closePat rest with
      | none => Except.error "template: unclosed action"
      | some (act, after) =>
        match parseAction act with
        | Except.error e => Except.error e
        | Except.ok node =>
          match parseNodes fuel after with
          | Except.error e => Except.error e
          | Except.ok tail => Except.ok (TmplNode.text (String.mk before) :: node :: tail)

/-- Parse a template source string (`template.Parse`). -/
def goTmplParse (s : String) : Except String (List TmplNode) :=
  parseNodes (s.data.length + 1) s.data

/-- UTF-8 encoding of one character as byte values. -/
def utf8Bytes (c : Char) : List Nat :=
  let n := c.toNat
  if n < 128 then [n]
  else if n < 2048 then [192 + n / 64, 128 + n % 64]
  else if n < 65536 then [224 + n / 4096, 128 + (n / 64) % 64, 128 + n % 64]
  else [240 + n / 262144, 128 + (n / 4096) % 64, 128 + (n / 64) % 64, 128 + n % 64]

/-- The UTF-8 bytes of a string, as Go indexes it. -/
def strBytes (s : String) : List Nat :=
  (s.data.map utf8Bytes).flatten

/-- Evaluate one node against the data value, which is the payload string
(`t.Execute` is called with the message text as data).  The `index`
builtin indexes the string's bytes: in range it returns the byte, which
prints as its decimal value; out of range it fails with
`index out of range: N`. -/
def execNode (data : String) : TmplNode → Except String String
  | TmplNode.text s => Except.ok s
  | TmplNode.dot => Except.ok data
  | TmplNode.indexDot n =>
    if n < (strBytes data).length then Except.ok (toString ((strBytes data).getD n 0))
    else Except.error ("index out of range: " ++ toString n)

/-- Evaluate a node list against the data value (`template.Execute`);
the first failing node aborts evaluation. -/
def goTmplExec : List TmplNode → String → Except String String
  | [], _ => Except.ok ""
  | n :: ns, data =>
    match execNode data n with
    | Except.error e => Except.error e
    | Except.ok s =>
      match goTmplExec ns data with
      | Except.error e => Except.error e
      | Except.ok rest => Except.ok (s ++ rest)

/-- Result of one `Subscription.template` call.  `value` is the returned
string (empty on error, as in the source), `err` the returned error, and
`parseOps` counts the `Parse` operations performed by this call. -/
structure TemplateResult where
  value : String
  err : Option String
  parseOps : Nat
deriving DecidableEq, Repr

/-- Run parse-then-execute for one template source (the body of
`Subscription.template` after the name dispatch).  Exactly one parse
operation is performed per call: the source holds no cache. -/
def templateRun (templateString : String) (text : String) : TemplateResult :=
  match goTmplParse templateString with
  | Except.error e => { value := "", err := some e, parseOps := 1 }
  | Except.ok nodes =>
    match goTmplExec nodes text with
    | Except.error e => { value := "", err := some e, parseOps := 1 }
    | Except.ok out => { value := out, err := none, parseOps := 1 }

/-- Method `Subscription.template`: select the `Title` or `Body` template
source by name, then parse and execute it with the message text as data. -/
def Subscription.template (s : Subscription) (which : String) (text : String) : TemplateResult :=
  if which = "Title" then templateRun s.Title text
  else if which = "Body" then templateRun s.Body text
  else { value := "", err := some "Invalid template name", parseOps := 0 }

/-- Outcome of `Subscription.createTitleAndBody`, extended with the number
of template parse operations performed and whether the error branch
(`log.Println("ERROR: ...")`) was taken. -/
structure RenderOutcome where
  title : String
  body : String
  parseOps : Nat
  errorLogged : Bool
deriving DecidableEq, Repr

/-- Method `Subscription.createTitleAndBody`: template path when either
template source is non-empty, otherwise split the text on the first
newline. On a template error the source logs and still returns the
(partially empty) values. -/
def Subscription.createTitleAndBody (s : Subscription) (text : String) : RenderOutcome :=
  if s.Title ≠ "" ∨ s.Body ≠ "" then
    let r0 := s.template "Body" text
    let r1 := s.template "Title" text
    { title := r1.value, body := r0.value,
      parseOps := r0.parseOps + r1.parseOps,
      errorLogged := r0.err.isSome || r1.err.isSome }
  else
    let parts := goSplitN2 text
    { title := parts.getD 0 "", body := if parts.length > 1 then parts.getD 1 "" else "",
      parseOps := 0, errorLogged := false }

/-- One outbound call to the D-Bus `Notify` method, with the arguments the
source passes (`notify` plus the constants of the `Call` invocation). -/
structure NotifyCall where
  appName : String
  replacesId : Nat
  icon : String
  title : String
  body : String
  actions : List String
  hints : List (String × String)
  expireTimeout : Int
deriving DecidableEq, Repr

/-- Function `notify`: one D-Bus call with fixed id, actions, hints and
expiry. -/
def notify (title body icon : String) : NotifyCall :=
  { appName := APPNAME, replacesId := 0, icon := icon, title := title,
    body := body, actions := [], hints := [], expireTimeout := 7000 }

/-- Method `Subscription.Trigger`: render, choose the icon (subscription
icon when non-empty, else the global icon), and emit exactly one notify
call.  The result is the list of notify calls emitted for this message. -/
def Subscription.Trigger (s : Subscription) (cfg : Config) (payload : String) : List NotifyCall :=
  let r := s.createTitleAndBody payload
  let icon := if s.Icon ≠ "" then s.Icon else cfg.Icon
  [notify r.title r.body icon]

/-- An arrived MQTT message: its topic and its payload. -/
structure Message where
  topic : String
  payload : String
deriving DecidableEq, Repr

/-- The message callback installed by `subscribe`: it passes only
`m.Payload()` to `Trigger`; the topic of the message is discarded. -/
def messageCallback (s : Subscription) (cfg : Config) (m : Message) : List NotifyCall :=
  s.Trigger cfg m.payload

/-! ### Broker session: subscribe / unsubscribe

The broker is modelled by an oracle `bus : Nat → SubOutcome` giving the
outcome of the n-th `Subscribe` call issued (counted from 0): completion
within the timeout, a timeout of `WaitTimeout`, or a token error. -/

/-- Outcome of one broker call. -/
inductive SubOutcome where
  | ok
  | timeout
  | fail (e : String)
deriving DecidableEq, Repr

/-- The mutable state touched by `subscribe`: the global `subscribed`
slice and the number of `Subscribe` calls issued so far. -/
structure SubscribeState where
  subscribed : List String
  calls : Nat
deriving DecidableEq, Repr

/-- The loop body of `subscribe`: skip subscriptions with an empty topic
(warning only), issue a `Subscribe` call for the rest, return the first
timeout or error, and append each successfully subscribed topic to the
`subscribed` slice. -/
def subscribeLoop (bus : Nat → SubOutcome) : List Subscription → SubscribeState → SubscribeState × Option String
  | [], st => (st, none)
  | sub :: rest, st =>
    if sub.Topic = "" then subscribeLoop bus rest st
    else
      match bus st.calls with
      | SubOutcome.ok =>
        subscribeLoop bus rest { subscribed := st.subscribed ++ [sub.Topic], calls := st.calls + 1 }
      | SubOutcome.timeout => ({ st with calls := st.calls + 1 }, some "MQTT Subscribe timed out")
      | SubOutcome.fail e => ({ st with calls := st.calls + 1 }, some e)

/-- Function `subscribe`: warn and return nil on an empty subscription
list, otherwise run the loop starting from an empty `subscribed` slice. -/
def subscribe (bus : Nat → SubOutcome) (cfg : Config) : SubscribeState × Option String :=
  if cfg.Subscriptions.length = 0 then ({ subscribed := [], calls := 0 }, none)
  else subscribeLoop bus cfg.Subscriptions { subscribed := [], calls := 0 }

/-- Function `unsubscribe`: when the client handle exists, issue one
`Unsubscribe` call per entry of the `subscribed` slice, in order.  The
result is the list of topics passed to `Unsubscribe`, in call order. -/
def unsubscribe (clientPresent : Bool) (subscribed : List String) : List String :=
  if clientPresent then subscribed else []

/-- Claim-side description of the active subscription set: the topics of
the configured rules whose subscribe call completed successfully, in
configuration order, stopping at the first failed or timed-out call
(empty-topic rules issue no call). -/
def successTopics (bus : Nat → SubOutcome) : List Subscription → Nat → List String
  | [], _ => []
  | sub :: rest, k =>
    if sub.Topic = "" then successTopics bus rest k
    else
      match bus k with
      | SubOutcome.ok => sub.Topic :: successTopics bus rest (k + 1)
      | SubOutcome.timeout => []
      | SubOutcome.fail _ => []

/-- The configured rules that actually get a `Subscribe` call: those with
a non-empty topic. -/
def validSubs (cfg : Config) : List Subscription :=
  cfg.Subscriptions.filter (fun s => !(s.Topic == ""))

/-! ### Orchestrator: `run` and `main` -/

/-- Environment oracle for the setup sequence: outcomes of `loadConfig`,
`connectDBus`, the MQTT connect, and each `Subscribe` call. -/
structure Env where
  loadConfigErr : Option String
  dbusErr : Option String
  mqttConnectOutcome : SubOutcome
  subOutcome : Nat → SubOutcome

/-- The error result of `connectMQTT`: the timeout message when the
connect token times out, otherwise the token's error. -/
def connectMQTTResult (env : Env) : Option String :=
  match env.mqttConnectOutcome with
  | SubOutcome.ok => none
  | SubOutcome.timeout => some "MQTT Connect timed out"
  | SubOutcome.fail e => some e

/-- Function `run`: the setup sequence; each failing step returns its
error immediately, skipping all later steps.  `none` means setup finished
and the program blocks on the signal channel. -/
def run (env : Env) (cfg : Config) : Option String :=
  match env.loadConfigErr with
  | some e => some e
  | none =>
    match env.dbusErr with
    | some e => some e
    | none =>
      match connectMQTTResult env with
      | some e => some e
      | none => (subscribe env.subOutcome cfg).2

/-- Function `main`: `log.Fatal` on a `run` error exits with status 1,
otherwise the process exits 0 after teardown. -/
def mainExitCode (env : Env) (cfg : Config) : Nat :=
  match run env cfg with
  | some _ => 1
  | none => 0

/-! ### Connection teardown and connect options -/

/-- The state read and written by `disconnectDBus`: whether `dbusConn` is
non-nil, the number of `Close` calls issued, and the log.  `connectDBus`
sets `connPresent` and the source never resets it. -/
structure DBusState where
  connPresent : Bool
  closeCalls : Nat
  logs : List String
deriving DecidableEq, Repr

/-- Function `disconnectDBus`: when the handle is non-nil, call `Close`
and log; the handle stays non-nil afterwards. -/
def disconnectDBus (st : DBusState) : DBusState :=
  if st.connPresent then
    { st with closeCalls := st.closeCalls + 1, logs := st.logs ++ ["Disconnected from DBus"] }
  else st

/-- The state read and written by `disconnectMQTT`: whether `mqttClient`
is non-nil, whether `IsConnected()` holds, the number of `Disconnect`
calls issued, and the log. -/
structure MQTTState where
  clientPresent : Bool
  connected : Bool
  disconnectCalls : Nat
  logs : List String
deriving DecidableEq, Repr

/-- Function `disconnectMQTT`: when the client exists and reports
connected, call `Disconnect(250)` and log; the client library reports not
connected afterwards. -/
def disconnectMQTT (st : MQTTState) : MQTTState :=
  if st.clientPresent then
    if st.connected then
      { st with connected := false, disconnectCalls := st.disconnectCalls + 1,
                logs := st.logs ++ ["Disconnected from MQTT"] }
    else st
  else st

/-- The client options built by `connectMQTT` before the connect call:
the broker URL list, and the optional client id, username and password. -/
structure ClientOptions where
  brokers : List String
  clientID : Option String
  username : Option String
  password : Option String
deriving DecidableEq, Repr

/-- The option-building part of `connectMQTT`: the URL is always
`tcp://host:port`; the client id is `APPNAME-hostname` when the hostname
lookup succeeds; no credential setter is ever invoked. -/
def connectMQTTOptions (cfg : Config) (hostname : Option String) : ClientOptions :=
  { brokers := ["tcp://" ++ cfg.Host ++ ":" ++ toString cfg.Port],
    clientID := hostname.map (fun h => APPNAME ++ "-" ++ h),
    username := none,
    password := none }

/-! ### Claim-side characterization of the default split -/

/-- Character predicate: not a newline. -/
def nlPred (c : Char) : Bool := !decide (c = nlChar)

/-- Claim-side title for the no-template rule: the part of the payload
before the first newline (all of it when there is none). -/
def titleOfPayload (p : String) : String := String.mk (p.data.takeWhile nlPred)

/-- Claim-side body for the no-template rule: the part of the payload
after the first newline (empty when there is none). -/
def bodyOfPayload (p : String) : String := String.mk ((p.data.dropWhile nlPred).drop 1)

/-! ### Concrete fixtures used by witnesses and counterexamples -/

/-- A rule with no templates. -/
def subPlain : Subscription := { Topic := "calendar/alert", Title := "", Body := "", Icon := "" }

/-- A rule whose title template source is an unclosed action: parsing it
fails. -/
def subBadTitle : Subscription := { Topic := "t", Title := "\x7b\x7b", Body := "", Icon := "" }

/-- A rule whose title template is the payload reference: it parses and
evaluates cleanly. -/
def subDotTitle : Subscription := { Topic := "t", Title := "\x7b\x7b.\x7d\x7d", Body := "", Icon := "" }

/-- A rule whose title template asks for topic segment index 1. -/
def subIndex1 : Subscription :=
  { Topic := "home/#", Title := "\x7b\x7bindex . 1\x7d\x7d", Body := "", Icon := "" }

/-- A rule whose title template asks for topic segment index 5. -/
def subIndex5 : Subscription :=
  { Topic := "home/#", Title := "\x7b\x7bindex . 5\x7d\x7d", Body := "", Icon := "" }

/-- Total template parse operations performed while rendering a list of
messages against one rule, in arrival order. -/
def renderAllParseOps (s : Subscription) (msgs : List String) : Nat :=
  (msgs.map (fun p => (s.createTitleAndBody p).parseOps)).sum

/-- An environment whose second subscribe call times out and whose other
setup steps succeed. -/
def envFailAt1 : Env :=
  { loadConfigErr := none, dbusErr := none, mqttConnectOutcome := SubOutcome.ok,
    subOutcome := fun i => if i = 1 then SubOutcome.timeout else SubOutcome.ok }

/-- A config with three valid subscriptions. -/
def cfgThree : Config :=
  { defaultConfig with Subscriptions :=
      [{ Topic := "a/1", Title := "", Body := "", Icon := "" },
       { Topic := "b/2", Title := "", Body := "", Icon := "" },
       { Topic := "c/3", Title := "", Body := "", Icon := "" }] }

end MqttDbusNotify

namespace MqttDbusNotify

/-! ### Helper lemmas -/

lemma stringMk_data (s : String) : String.mk s.data = s := rfl

lemma stringMk_nil : String.mk ([] : List Char) = "" := rfl

lemma splitFirstNL_eq_none {l : List Char} (h : splitFirstNL l = none) :
    l.takeWhile nlPred = l ∧ l.dropWhile nlPred = [] := by
  induction l with
  | nil => simp
  | cons c cs ih =>
    by_cases hc : c = nlChar
    · simp [splitFirstNL, hc] at h
    · rw [splitFirstNL, if_neg hc] at h
      cases hs : splitFirstNL cs with
      | none =>
        obtain ⟨h1, h2⟩ := ih hs
        simp [List.takeWhile_cons, List.dropWhile_cons, nlPred, hc, h1, h2]
      | some ab =>
        rw [hs] at h
        simp at h

lemma splitFirstNL_eq_some {l a b : List Char} (h : splitFirstNL l = some (a, b)) :
    a = l.takeWhile nlPred ∧ b = (l.dropWhile nlPred).drop 1 := by
  induction l generalizing a b with
  | nil => simp [splitFirstNL] at h
  | cons c cs ih =>
    by_cases hc : c = nlChar
    · rw [splitFirstNL, if_pos hc] at h
      simp only [Option.some.injEq, Prod.mk.injEq] at h
      obtain ⟨rfl, rfl⟩ := h
      simp [List.takeWhile_cons, List.dropWhile_cons, nlPred, hc]
    · rw [splitFirstNL, if_neg hc] at h
      cases hs : splitFirstNL cs with
      | none => rw [hs] at h; simp at h
      | some ab =>
        rw [hs] at h
        obtain ⟨a', b'⟩ := ab
        simp only [Option.some.injEq, Prod.mk.injEq] at h
        obtain ⟨rfl, rfl⟩ := h
        obtain ⟨ih1, ih2⟩ := ih hs
        simp [List.takeWhile_cons, List.dropWhile_cons, nlPred, hc, ← ih1, ← ih2]

lemma goSplitN2_ne_nil (p : String) : goSplitN2 p ≠ [] := by
  unfold goSplitN2
  cases h : splitFirstNL p.data with
  | none => simp
  | some ab => simp

/-! ### Claims -/

/-- C1: for every rule whose title and body template are both empty and
every payload, rendering yields the part of the payload before the first
newline as title and the part after it as body (empty when there is no
newline), with no template parsed or evaluated. -/
theorem c1_default_split (s : Subscription) (p : String)
    (ht : s.Title = "") (hb : s.Body = "") :
    (s.createTitleAndBody p).title = titleOfPayload p ∧
    (s.createTitleAndBody p).body = bodyOfPayload p ∧
    (s.createTitleAndBody p).parseOps = 0 ∧
    (s.createTitleAndBody p).errorLogged = false := by
  simp only [Subscription.createTitleAndBody, ht, hb, ne_eq, not_true_eq_false, or_self,
    if_false, ite_false]
  cases hsp : splitFirstNL p.data with
  | none =>
    obtain ⟨h1, h2⟩ := splitFirstNL_eq_none hsp
    unfold goSplitN2
    rw [hsp]
    simp [titleOfPayload, bodyOfPayload, h1, h2, stringMk_data, stringMk_nil]
  | some ab =>
    obtain ⟨a, b⟩ := ab
    obtain ⟨ha, hb'⟩ := splitFirstNL_eq_some hsp
    unfold goSplitN2
    rw [hsp]
    simp [titleOfPayload, bodyOfPayload, ← ha, ← hb']

/-- C1 witness: the defaulted rule applied to a concrete two-line
payload. -/
theorem c1_default_split_witness :
    subPlain.Title = "" ∧ subPlain.Body = "" ∧
    ((subPlain.createTitleAndBody "Meeting\nRoom 204").title = titleOfPayload "Meeting\nRoom 204" ∧
      (subPlain.createTitleAndBody "Meeting\nRoom 204").body = bodyOfPayload "Meeting\nRoom 204" ∧
      (subPlain.createTitleAndBody "Meeting\nRoom 204").parseOps = 0 ∧
      (subPlain.createTitleAndBody "Meeting\nRoom 204").errorLogged = false) :=
  ⟨rfl, rfl, c1_default_split subPlain "Meeting\nRoom 204" rfl rfl⟩

/-- C10: for a rule with no templates, rendering never fails: the payload
split always has a first element, the empty payload renders to an empty
title and body, and exactly one notify call is made for every message. -/
theorem c10_total_default (s : Subscription) (cfg : Config) (p : String)
    (ht : s.Title = "") (hb : s.Body = "") :
    goSplitN2 p ≠ [] ∧
    (s.createTitleAndBody "").title = "" ∧
    (s.createTitleAndBody "").body = "" ∧
    (s.Trigger cfg p).length = 1 := by
  have hcond : ¬(s.Title ≠ "" ∨ s.Body ≠ "") := by simp [ht, hb]
  refine ⟨goSplitN2_ne_nil p, ?_, ?_, ?_⟩
  · unfold Subscription.createTitleAndBody
    rw [if_neg hcond]
    decide
  · unfold Subscription.createTitleAndBody
    rw [if_neg hcond]
    decide
  · simp [Subscription.Trigger]

lemma templateRun_parseOps (ts text : String) : (templateRun ts text).parseOps = 1 := by
  cases hp : goTmplParse ts with
  | error e => simp [templateRun, hp]
  | ok nodes =>
    cases he : goTmplExec nodes text with
    | error e => simp [templateRun, hp, he]
    | ok out => simp [templateRun, hp, he]

lemma templateRun_err_value (ts text : String) :
    (templateRun ts text).err.isSome = true → (templateRun ts text).value = "" := by
  cases hp : goTmplParse ts with
  | error e => intro _; simp [templateRun, hp]
  | ok nodes =>
    cases he : goTmplExec nodes text with
    | error e => intro _; simp [templateRun, hp, he]
    | ok out => intro h; simp [templateRun, hp, he] at h

lemma template_Title_eq (s : Subscription) (p : String) :
    s.template "Title" p = templateRun s.Title p := rfl

lemma template_Body_eq (s : Subscription) (p : String) :
    s.template "Body" p = templateRun s.Body p := rfl

lemma template_err_value (s : Subscription) (which p : String) :
    (s.template which p).err.isSome = true → (s.template which p).value = "" := by
  unfold Subscription.template
  by_cases h1 : which = "Title"
  · rw [if_pos h1]
    exact templateRun_err_value _ _
  · rw [if_neg h1]
    by_cases h2 : which = "Body"
    · rw [if_pos h2]
      exact templateRun_err_value _ _
    · rw [if_neg h2]
      intro _
      rfl

lemma createTitleAndBody_templates (s : Subscription) (p : String)
    (huse : s.Title ≠ "" ∨ s.Body ≠ "") :
    s.createTitleAndBody p =
      { title := (s.template "Title" p).value,
        body := (s.template "Body" p).value,
        parseOps := (s.template "Body" p).parseOps + (s.template "Title" p).parseOps,
        errorLogged := (s.template "Body" p).err.isSome || (s.template "Title" p).err.isSome } := by
  unfold Subscription.createTitleAndBody
  rw [if_pos huse]

/-- C2 (amended): when a title or body template fails to parse or
evaluate, the source logs the error and still sends exactly one
notification for the message; each failed field is the empty string, the
other field is whatever its template produced. -/
theorem c2_failed_template_still_notifies (s : Subscription) (cfg : Config) (p : String)
    (huse : s.Title ≠ "" ∨ s.Body ≠ "")
    (herr : (s.template "Title" p).err.isSome = true ∨ (s.template "Body" p).err.isSome = true) :
    (s.createTitleAndBody p).errorLogged = true ∧
    s.Trigger cfg p =
      [notify (s.template "Title" p).value (s.template "Body" p).value
        (if s.Icon ≠ "" then s.Icon else cfg.Icon)] ∧
    ((s.template "Title" p).err.isSome = true → (s.createTitleAndBody p).title = "") ∧
    ((s.template "Body" p).err.isSome = true → (s.createTitleAndBody p).body = "") := by
  have hcb := createTitleAndBody_templates s p huse
  refine ⟨?_, ?_, ?_, ?_⟩
  · rw [hcb]
    rcases herr with h | h <;> simp [h]
  · unfold Subscription.Trigger
    rw [hcb]
  · intro h
    rw [hcb]
    exact template_err_value s "Title" p h
  · intro h
    rw [hcb]
    exact template_err_value s "Body" p h

/-- C2 counterexample to the claim as stated: a rule whose title template
is an unclosed action; the parse fails, the error branch is taken, and a
notification is still emitted (the claim says none may be sent). -/
theorem c2_counterexample :
    (subBadTitle.createTitleAndBody "hello").errorLogged = true ∧
    subBadTitle.Trigger defaultConfig "hello" ≠ [] ∧
    (subBadTitle.Trigger defaultConfig "hello").length = 1 := by decide

/-- C2 witness: the amended theorem applied at a concrete failing rule. -/
theorem c2_failed_template_still_notifies_witness :
    (subBadTitle.Title ≠ "" ∨ subBadTitle.Body ≠ "") ∧
    ((subBadTitle.template "Title" "hello").err.isSome = true ∨
      (subBadTitle.template "Body" "hello").err.isSome = true) ∧
    ((subBadTitle.createTitleAndBody "hello").errorLogged = true ∧
      subBadTitle.Trigger defaultConfig "hello" =
        [notify (subBadTitle.template "Title" "hello").value
          (subBadTitle.template "Body" "hello").value
          (if subBadTitle.Icon ≠ "" then subBadTitle.Icon else defaultConfig.Icon)] ∧
      ((subBadTitle.template "Title" "hello").err.isSome = true →
        (subBadTitle.createTitleAndBody "hello").title = "") ∧
      ((subBadTitle.template "Body" "hello").err.isSome = true →
        (subBadTitle.createTitleAndBody "hello").body = "")) :=
  ⟨Or.inl (by decide), Or.inl (by decide),
    c2_failed_template_still_notifies subBadTitle defaultConfig "hello"
      (Or.inl (by decide)) (Or.inl (by decide))⟩

/-- C3 (amended): no template cache exists; every rendering of a message
against a rule with a non-empty title or body template performs one parse
operation per field, hence two per message, on every message. -/
theorem c3_reparse_every_message (s : Subscription) (p : String)
    (huse : s.Title ≠ "" ∨ s.Body ≠ "") :
    (s.createTitleAndBody p).parseOps = 2 := by
  rw [createTitleAndBody_templates s p huse]
  show (s.template "Body" p).parseOps + (s.template "Title" p).parseOps = 2
  rw [template_Body_eq, template_Title_eq, templateRun_parseOps, templateRun_parseOps]

/-- C3 counterexample to the claim as stated: rendering two messages
against the same template rule performs four parse operations in total;
in particular the second message still performs two, not zero. -/
theorem c3_counterexample :
    renderAllParseOps subDotTitle ["first message", "second message"] = 4 ∧
    (subDotTitle.createTitleAndBody "second message").parseOps ≠ 0 := by decide

/-- C3 witness: the amended theorem applied at a concrete template rule. -/
theorem c3_reparse_every_message_witness :
    (subDotTitle.Title ≠ "" ∨ subDotTitle.Body ≠ "") ∧
    (subDotTitle.createTitleAndBody "first message").parseOps = 2 :=
  ⟨Or.inl (by decide), c3_reparse_every_message subDotTitle "first message" (Or.inl (by decide))⟩

/-- C4 (amended): template evaluation sees only the payload — the message
callback discards the topic, so rendering is independent of the arrived
topic and no topic-segment accessor exists; an `index . N` action indexes
the payload's bytes (in range it renders the byte's decimal value, out of
range it fails with `index out of range: N`), and on such a failure the
error is logged and a notification with that field empty is still
emitted. -/
theorem c4_topic_not_available (s : Subscription) (cfg : Config) (m1 m2 : Message)
    (h : m1.payload = m2.payload) (d : String) (n : Nat) :
    messageCallback s cfg m1 = messageCallback s cfg m2 ∧
    (n < (strBytes d).length →
      execNode d (TmplNode.indexDot n) = Except.ok (toString ((strBytes d).getD n 0))) ∧
    (¬ n < (strBytes d).length →
      execNode d (TmplNode.indexDot n) = Except.error ("index out of range: " ++ toString n)) := by
  refine ⟨?_, ?_, ?_⟩
  · unfold messageCallback
    rw [h]
  · intro hlt
    simp only [execNode]
    rw [if_pos hlt]
  · intro hge
    simp only [execNode]
    rw [if_neg hge]

/-- C4 counterexample to the claim as stated: on topic
`home/kitchen/temp` with payload `21.5`, a rule whose title template
references index 1 renders `49` (the decimal value of the payload byte at
index 1), not the topic segment `kitchen`; and with index 5 the execution
fails but a notification is still produced with an empty title (the claim
says none may be produced). -/
theorem c4_counterexample :
    (messageCallback subIndex1 defaultConfig
        { topic := "home/kitchen/temp", payload := "21.5" }).map (fun c => c.title) = ["49"] ∧
    (messageCallback subIndex1 defaultConfig
        { topic := "home/kitchen/temp", payload := "21.5" }).map (fun c => c.title) ≠ ["kitchen"] ∧
    (messageCallback subIndex5 defaultConfig
        { topic := "home/kitchen/temp", payload := "21.5" }).map (fun c => c.title) = [""] ∧
    (subIndex5.createTitleAndBody "21.5").errorLogged = true ∧
    (messageCallback subIndex5 defaultConfig
        { topic := "home/kitchen/temp", payload := "21.5" }).length = 1 := by decide

/-- C4 witness: two messages with equal payloads on different topics give
the same notify calls, and indexing the payload `21.5` at 1 yields the
byte value `49`. -/
theorem c4_topic_not_available_witness :
    let m1 : Message := { topic := "home/kitchen/temp", payload := "21.5" }
    let m2 : Message := { topic := "garden/shed/humidity", payload := "21.5" }
    m1.payload = m2.payload ∧
    (messageCallback subIndex1 defaultConfig m1 = messageCallback subIndex1 defaultConfig m2 ∧
      (1 < (strBytes "21.5").length →
        execNode "21.5" (TmplNode.indexDot 1) =
          Except.ok (toString ((strBytes "21.5").getD 1 0))) ∧
      (¬ 1 < (strBytes "21.5").length →
        execNode "21.5" (TmplNode.indexDot 1) =
          Except.error ("index out of range: " ++ toString 1))) :=
  ⟨rfl, c4_topic_not_available subIndex1 defaultConfig _ _ rfl "21.5" 1⟩

/-- C10 witness: the defaulted rule at the empty payload. -/
theorem c10_total_default_witness :
    subPlain.Title = "" ∧ subPlain.Body = "" ∧
    (goSplitN2 "" ≠ [] ∧
      (subPlain.createTitleAndBody "").title = "" ∧
      (subPlain.createTitleAndBody "").body = "" ∧
      (subPlain.Trigger defaultConfig "").length = 1) :=
  ⟨rfl, rfl, c10_total_default subPlain defaultConfig "" rfl rfl⟩

lemma subscribeLoop_subscribed (bus : Nat → SubOutcome) (l : List Subscription) :
    ∀ st : SubscribeState,
      (subscribeLoop bus l st).1.subscribed = st.subscribed ++ successTopics bus l st.calls := by
  induction l with
  | nil => intro st; simp [subscribeLoop, successTopics]
  | cons sub rest ih =>
    intro st
    by_cases htop : sub.Topic = ""
    · simp [subscribeLoop, successTopics, htop, ih]
    · cases hb : bus st.calls with
      | ok =>
        simp only [subscribeLoop, successTopics, if_neg htop, hb]
        rw [ih]
        simp
      | timeout => simp [subscribeLoop, successTopics, htop, hb]
      | fail e => simp [subscribeLoop, successTopics, htop, hb]

/-- C5: the active subscription set holds exactly the topics whose
subscribe call completed successfully, in the order they were added, and
the shutdown unsubscribe step issues exactly those topics in that order. -/
theorem c5_active_subscription_set (bus : Nat → SubOutcome) (cfg : Config) :
    (subscribe bus cfg).1.subscribed = successTopics bus cfg.Subscriptions 0 ∧
    unsubscribe true (subscribe bus cfg).1.subscribed = (subscribe bus cfg).1.subscribed := by
  constructor
  · unfold subscribe
    by_cases h : cfg.Subscriptions.length = 0
    · rw [if_pos h]
      rw [List.length_eq_zero.mp h]
      rfl
    · rw [if_neg h]
      simpa using subscribeLoop_subscribed bus cfg.Subscriptions { subscribed := [], calls := 0 }
  · rfl

lemma subscribeLoop_filter (bus : Nat → SubOutcome) (l : List Subscription) :
    ∀ st : SubscribeState,
      subscribeLoop bus l st = subscribeLoop bus (l.filter (fun s => !(s.Topic == ""))) st := by
  induction l with
  | nil => intro st; rfl
  | cons sub rest ih =>
    intro st
    by_cases htop : sub.Topic = ""
    · simp [subscribeLoop, List.filter_cons, htop, ih]
    · cases hb : bus st.calls with
      | ok => simp [subscribeLoop, List.filter_cons, htop, hb, ih]
      | timeout => simp [subscribeLoop, List.filter_cons, htop, hb]
      | fail e => simp [subscribeLoop, List.filter_cons, htop, hb]

lemma subscribeLoop_stops (bus : Nat → SubOutcome) (l : List Subscription) :
    ∀ (st : SubscribeState) (j : Nat),
      (∀ s ∈ l, ¬(s.Topic = "")) →
      (∀ i, i < j → bus (st.calls + i) = SubOutcome.ok) →
      j < l.length →
      bus (st.calls + j) ≠ SubOutcome.ok →
      (subscribeLoop bus l st).1.calls = st.calls + j + 1 ∧
      (subscribeLoop bus l st).1.subscribed = st.subscribed ++ (l.take j).map (fun s => s.Topic) ∧
      (subscribeLoop bus l st).2.isSome = true := by
  induction l with
  | nil =>
    intro st j _ _ hj _
    exact absurd hj (by simp)
  | cons sub rest ih =>
    intro st j hval hok hj hfail
    have htop : ¬(sub.Topic = "") := hval sub (by simp)
    cases j with
    | zero =>
      have h0 : bus st.calls ≠ SubOutcome.ok := by simpa using hfail
      cases hb : bus st.calls with
      | ok => exact absurd hb h0
      | timeout => simp [subscribeLoop, htop, hb]
      | fail e => simp [subscribeLoop, htop, hb]
    | succ j' =>
      have h0 : bus st.calls = SubOutcome.ok := by
        simpa using hok 0 (Nat.succ_pos j')
      have hok' : ∀ i, i < j' → bus (st.calls + 1 + i) = SubOutcome.ok := by
        intro i hi
        have harith : st.calls + 1 + i = st.calls + (i + 1) := by omega
        rw [harith]
        exact hok (i + 1) (by omega)
      have hfail' : bus (st.calls + 1 + j') ≠ SubOutcome.ok := by
        have harith : st.calls + 1 + j' = st.calls + (j' + 1) := by omega
        rw [harith]
        exact hfail
      have hj' : j' < rest.length := by
        simpa using Nat.lt_of_succ_lt_succ hj
      have hval' : ∀ s ∈ rest, ¬(s.Topic = "") := fun s hs => hval s (List.mem_cons_of_mem _ hs)
      obtain ⟨ihc, ihs, ihe⟩ :=
        ih { subscribed := st.subscribed ++ [sub.Topic], calls := st.calls + 1 } j' hval' hok' hj' hfail'
      refine ⟨?_, ?_, ?_⟩
      · simp only [subscribeLoop, if_neg htop, h0]
        rw [ihc]
        show st.calls + 1 + j' + 1 = st.calls + (j' + 1) + 1
        omega
      · simp only [subscribeLoop, if_neg htop, h0]
        rw [ihs]
        simp [List.take_succ_cons]
      · simp only [subscribeLoop, if_neg htop, h0]
        exact ihe

/-- C6: with config loading, the D-Bus connect and the MQTT connect all
succeeding, a timeout or error of any single subscribe call makes `run`
return that error, `main` exit with status 1, and the loop stop right
there: exactly the rules before the failing one are subscribed and no
later rule gets a subscribe call. -/
theorem c6_subscribe_failure_fatal (env : Env) (cfg : Config) (j : Nat)
    (hload : env.loadConfigErr = none) (hdbus : env.dbusErr = none)
    (hmqtt : env.mqttConnectOutcome = SubOutcome.ok)
    (hok : ∀ i, i < j → env.subOutcome i = SubOutcome.ok)
    (hj : j < (validSubs cfg).length)
    (hfail : env.subOutcome j ≠ SubOutcome.ok) :
    (run env cfg).isSome = true ∧
    mainExitCode env cfg = 1 ∧
    (subscribe env.subOutcome cfg).1.calls = j + 1 ∧
    (subscribe env.subOutcome cfg).1.subscribed =
      ((validSubs cfg).take j).map (fun s => s.Topic) := by
  have hne : ¬(cfg.Subscriptions.length = 0) := by
    intro h0
    rw [validSubs, List.length_eq_zero.mp h0] at hj
    simp at hj
  have hval : ∀ s ∈ validSubs cfg, ¬(s.Topic = "") := by
    intro s hs
    have := List.of_mem_filter hs
    simpa using this
  have hsub : subscribe env.subOutcome cfg =
      subscribeLoop env.subOutcome (validSubs cfg) { subscribed := [], calls := 0 } := by
    unfold subscribe
    rw [if_neg hne]
    exact subscribeLoop_filter env.subOutcome cfg.Subscriptions _
  obtain ⟨hc, hs, he⟩ :=
    subscribeLoop_stops env.subOutcome (validSubs cfg) { subscribed := [], calls := 0 } j hval
      (by intro i hi; simpa using hok i hi) hj (by simpa using hfail)
  have herr : (subscribe env.subOutcome cfg).2.isSome = true := by rw [hsub]; exact he
  have hrun : run env cfg = (subscribe env.subOutcome cfg).2 := by
    unfold run connectMQTTResult
    rw [hload, hdbus, hmqtt]
  refine ⟨?_, ?_, ?_, ?_⟩
  · rw [hrun]
    exact herr
  · obtain ⟨e, hx⟩ := Option.isSome_iff_exists.mp herr
    unfold mainExitCode
    rw [hrun, hx]
  · rw [hsub, hc]
    simp
  · rw [hsub, hs]
    simp

/-- C6 witness: the theorem applied where the second subscribe call times
out among three configured rules. -/
theorem c6_subscribe_failure_fatal_witness :
    envFailAt1.loadConfigErr = none ∧ envFailAt1.dbusErr = none ∧
    envFailAt1.mqttConnectOutcome = SubOutcome.ok ∧
    (∀ i, i < 1 → envFailAt1.subOutcome i = SubOutcome.ok) ∧
    1 < (validSubs cfgThree).length ∧
    envFailAt1.subOutcome 1 ≠ SubOutcome.ok ∧
    ((run envFailAt1 cfgThree).isSome = true ∧
      mainExitCode envFailAt1 cfgThree = 1 ∧
      (subscribe envFailAt1.subOutcome cfgThree).1.calls = 1 + 1 ∧
      (subscribe envFailAt1.subOutcome cfgThree).1.subscribed =
        ((validSubs cfgThree).take 1).map (fun s => s.Topic)) :=
  ⟨rfl, rfl, rfl, by decide, by decide, by decide,
    c6_subscribe_failure_fatal envFailAt1 cfgThree 1 rfl rfl rfl
      (by decide) (by decide) (by decide)⟩

/-- C7 (amended): `disconnectMQTT` is idempotent (the second call finds
the client no longer connected and does nothing); `disconnectDBus` is a
no-op only when no connection was ever made — once the handle exists,
every call issues another `Close` and logs another teardown line, since
the handle is never cleared (no error is surfaced in either case). -/
theorem c7_disconnect_idempotence (m : MQTTState) (d e : DBusState)
    (hd : d.connPresent = false) (he : e.connPresent = true) :
    disconnectMQTT (disconnectMQTT m) = disconnectMQTT m ∧
    disconnectDBus (disconnectDBus d) = disconnectDBus d ∧
    (disconnectDBus (disconnectDBus e)).closeCalls = e.closeCalls + 2 ∧
    (disconnectDBus (disconnectDBus e)).logs =
      e.logs ++ ["Disconnected from DBus", "Disconnected from DBus"] := by
  refine ⟨?_, ?_, ?_, ?_⟩
  · unfold disconnectMQTT
    by_cases hc : m.clientPresent
    · by_cases hcon : m.connected
      · simp [hc, hcon]
      · simp [hc, hcon]
    · simp [hc]
  · simp [disconnectDBus, hd]
  · simp [disconnectDBus, he]
  · simp [disconnectDBus, he]

/-- C7 counterexample to the claim as stated: after a successful D-Bus
connect, the second `disconnectDBus` call closes again and logs a second
`Disconnected from DBus` line, so the double call differs from the single
one. -/
theorem c7_counterexample :
    (disconnectDBus (disconnectDBus
        { connPresent := true, closeCalls := 0, logs := [] })).closeCalls = 2 ∧
    (disconnectDBus (disconnectDBus
        { connPresent := true, closeCalls := 0, logs := [] })).logs =
      ["Disconnected from DBus", "Disconnected from DBus"] ∧
    disconnectDBus (disconnectDBus { connPresent := true, closeCalls := 0, logs := [] }) ≠
      disconnectDBus { connPresent := true, closeCalls := 0, logs := [] } := by decide

/-- C7 witness: the amended theorem at concrete states. -/
theorem c7_disconnect_idempotence_witness :
    ({ connPresent := false, closeCalls := 0, logs := [] : DBusState }).connPresent = false ∧
    ({ connPresent := true, closeCalls := 0, logs := [] : DBusState }).connPresent = true ∧
    (disconnectMQTT (disconnectMQTT
        { clientPresent := true, connected := true, disconnectCalls := 0, logs := [] }) =
      disconnectMQTT
        { clientPresent := true, connected := true, disconnectCalls := 0, logs := [] } ∧
      disconnectDBus (disconnectDBus { connPresent := false, closeCalls := 0, logs := [] }) =
        disconnectDBus { connPresent := false, closeCalls := 0, logs := [] } ∧
      (disconnectDBus (disconnectDBus
          { connPresent := true, closeCalls := 0, logs := [] })).closeCalls = 0 + 2 ∧
      (disconnectDBus (disconnectDBus
          { connPresent := true, closeCalls := 0, logs := [] })).logs =
        [] ++ ["Disconnected from DBus", "Disconnected from DBus"]) :=
  ⟨rfl, rfl,
    c7_disconnect_idempotence
      { clientPresent := true, connected := true, disconnectCalls := 0, logs := [] }
      { connPresent := false, closeCalls := 0, logs := [] }
      { connPresent := true, closeCalls := 0, logs := [] } rfl rfl⟩

/-- C8 (amended): the broker connect always builds the plain
`tcp://host:port` URL — no TLS scheme exists in the code and the runtime
config has no secure flag — never sets username or password even when
they are present in the config, and sets the client id
`mqtt-dbus-notify-<hostname>` when the hostname lookup succeeds. -/
theorem c8_connect_options (cfg : Config) (h : String) :
    (connectMQTTOptions cfg (some h)).brokers =
      ["tcp://" ++ cfg.Host ++ ":" ++ toString cfg.Port] ∧
    (connectMQTTOptions cfg (some h)).username = none ∧
    (connectMQTTOptions cfg (some h)).password = none ∧
    (connectMQTTOptions cfg (some h)).clientID = some (APPNAME ++ "-" ++ h) := by
  refine ⟨rfl, rfl, rfl, rfl⟩

/-- C8 counterexample to the claim as stated: with credentials in the
config, the built options carry no username or password, and the URL uses
the plain scheme. -/
theorem c8_counterexample :
    (connectMQTTOptions
        { Host := "broker.example", Port := 8883, User := "alice", Pass := "secret",
          Timeout := 5, Icon := "", Subscriptions := [] } (some "myhost")).username = none ∧
    (connectMQTTOptions
        { Host := "broker.example", Port := 8883, User := "alice", Pass := "secret",
          Timeout := 5, Icon := "", Subscriptions := [] } (some "myhost")).username ≠
      some "alice" ∧
    (connectMQTTOptions
        { Host := "broker.example", Port := 8883, User := "alice", Pass := "secret",
          Timeout := 5, Icon := "", Subscriptions := [] } (some "myhost")).brokers =
      ["tcp://broker.example:8883"] := by decide

/-- C9: every notify call emitted for a delivered message carries the
rule icon when non-empty and the global icon otherwise, and always passes
replaces-id 0, the app name, an empty action list, an empty hints map and
a 7000 millisecond expiry. -/
theorem c9_notify_constants (s : Subscription) (cfg : Config) (m : Message) :
    (messageCallback s cfg m).map
        (fun c => (c.appName, c.replacesId, c.actions, c.hints, c.expireTimeout)) =
      [(APPNAME, 0, [], [], 7000)] ∧
    (messageCallback s cfg m).map (fun c => c.icon) =
      [if s.Icon = "" then cfg.Icon else s.Icon] := by
  constructor
  · rfl
  · unfold messageCallback Subscription.Trigger
    by_cases hi : s.Icon = ""
    · simp [hi, notify]
    · simp [hi, notify]

end MqttDbusNotify

